import Mathlib

/-!
Shallow embedding of `apps/spark/src/spark/management/commands/livy_server.py`,
the Django management command that launches the Livy server by replacing the
current process image with `os.execve`.

The whole program is `Command.handle`:

  def handle(self, *args, **kwargs):
      if not args:
        session_kind = 'process'
      else:
        session_kind = args[0].lower()
      env = os.environ.copy()
      args = [os.path.join(os.path.dirname(__file__),
                           "..", "..", "..", "..", "java", "bin", "livy-server"),
              session_kind]
      LOG.info("Executing %r (%r) (%r)" % (bin, args, env))
      os.execve(args[0], args, env)

The embedding makes the ambient inputs explicit: `dirname` stands for
`os.path.dirname(__file__)` (a runtime deployment value), `environ` for the
ambient `os.environ` mapping, and the operating system's reaction to the
`execve` system call is a parameter `os : Invocation → Option ExecError`
(`none` means the call succeeds and the process is replaced; `some e` means
the call fails and `OSError` propagates — the command installs no handler).
Side effects (the `LOG.info` call and the `execve` call) are recorded as an
event trace.
-/

namespace LivyServer

/-- Environment mapping (`os.environ`): an ordered association of variable
names to values, modelling a Python `dict` of strings. -/
abbrev Env := List (String × String)

/-- Model of Python `str.lower()` (restricted to its effect on ASCII letters,
which is all the launcher's documented inputs use): lower-case every
character. -/
def pyLower (s : String) : String :=
  String.mk (s.data.map Char.toLower)

/-- Model of Python `str.startswith(p)`: character-sequence prefix test. -/
def strStartsWith (s p : String) : Bool :=
  p.data.isPrefixOf s.data

/-- Model of Python `str.endswith(p)`: character-sequence suffix test. -/
def strEndsWith (s p : String) : Bool :=
  p.data.isSuffixOf s.data

/-- One step of CPython `posixpath.join`: for each extra component `b`,
`if b.startswith('/'): path = b
elif not path or path.endswith('/'): path += b
else: path += '/' + b`. -/
def joinOne (path b : String) : String :=
  if strStartsWith b "/" then b
  else if path = "" || strEndsWith path "/" then path ++ b
  else path ++ "/" ++ b

/-- Model of `os.path.join(a, *p)` on POSIX: fold `joinOne` over the extra
components.  No normalization of `..` segments is performed. -/
def osPathJoin (a : String) (ps : List String) : String :=
  ps.foldl joinOne a

/-- The resolved executable path
`os.path.join(os.path.dirname(__file__), "..", "..", "..", "..", "java",
"bin", "livy-server")`, parameterised by `dirname = os.path.dirname(__file__)`
(lines 44–55 of the source). -/
def livyServerPath (dirname : String) : String :=
  osPathJoin dirname ["..", "..", "..", "..", "java", "bin", "livy-server"]

/-- The chosen session kind (lines 36–39 of the source):
`'process'` when the argument tuple is empty, else `args[0].lower()`. -/
def sessionKind (args : List String) : String :=
  match args with
  | [] => "process"
  | a :: _ => pyLower a

/-- Model of `os.environ.copy()`: a fresh mapping with the same entries.
On the immutable embedding of a mapping a copy is the mapping itself; the
point of the definition is that `handle` passes this copy to `execve` and
never writes through to the ambient environment. -/
def environCopy (e : Env) : Env := e

/-- Failure cause of the `execve` system call (`OSError` as seen by the
launcher): missing file, permission denial, or any other errno. -/
inductive ExecError where
  | enoent
  | eacces
  | other (errno : Nat)
deriving DecidableEq, Repr

/-- The data handed to one `os.execve` call: the file to execute, the
argument vector, and the environment mapping. -/
structure Invocation where
  path : String
  argv : List String
  env : Env
deriving DecidableEq, Repr

instance : Inhabited Invocation := ⟨⟨"", [], []⟩⟩

/-- Observable side effects of the command: the `LOG.info` line and the
`execve` system call. -/
inductive Event where
  | logInfo (msg : String)
  | execveCall (inv : Invocation)
deriving DecidableEq, Repr

/-- Terminal outcome of `handle`: either the process image was replaced
(success of `execve`, which never returns) or an `OSError` propagated out of
the command. -/
inductive HandleResult where
  | replaced (inv : Invocation)
  | raised (e : ExecError)
deriving DecidableEq, Repr

/-- Model of CPython `repr` escaping for a single character inside a
single-quoted string literal (printable characters other than the quote and
the backslash are kept as-is). -/
def pyEscapeChar (c : Char) : List Char :=
  if c = Char.ofNat 92 then [Char.ofNat 92, Char.ofNat 92]
  else if c = Char.ofNat 39 then [Char.ofNat 92, Char.ofNat 39]
  else if c = Char.ofNat 10 then [Char.ofNat 92, 'n']
  else if c = Char.ofNat 13 then [Char.ofNat 92, 'r']
  else if c = Char.ofNat 9 then [Char.ofNat 92, 't']
  else [c]

/-- Model of CPython `repr` of a string: single quotes around the escaped
character sequence. -/
def pyReprStr (s : String) : String :=
  String.mk (Char.ofNat 39 :: (s.data.map pyEscapeChar).flatten ++ [Char.ofNat 39])

/-- Model of CPython `repr` of a list of strings. -/
def pyReprList (xs : List String) : String :=
  "[" ++ String.intercalate ", " (xs.map pyReprStr) ++ "]"

/-- Model of CPython `repr` of a string-to-string dict (in insertion order). -/
def pyReprDict (e : Env) : String :=
  "\x7b" ++ String.intercalate ", " (e.map fun kv => pyReprStr kv.1 ++ ": " ++ pyReprStr kv.2) ++ "\x7d"

/-- Model of `repr(bin)`: the first `%r` slot of the log format is filled with
the Python builtin function `bin` (the source interpolates the name `bin`,
which is not a local variable there), whose repr is this fixed string. -/
def binRepr : String := "<built-in function bin>"

/-- The logged line (line 57 of the source):
`"Executing %r (%r) (%r)" % (bin, args, env)`. -/
def logMessage (argv : List String) (env : Env) : String :=
  "Executing " ++ binRepr ++ " (" ++ pyReprList argv ++ ") (" ++ pyReprDict env ++ ")"

/-- Conversion of the `execve` outcome into the command's terminal result:
`none` (the system call succeeded) means the process image is now the target
program; `some e` means the `OSError` propagates out of `handle`, which
installs no handler. -/
def execveResult (r : Option ExecError) (inv : Invocation) : HandleResult :=
  match r with
  | none => HandleResult.replaced inv
  | some e => HandleResult.raised e

/-- Shallow embedding of `Command.handle` (lines 36–60 of the source).
Returns the terminal result, the event trace (the `LOG.info` line followed by
the single `execve` call), and the ambient environment as it stands after the
command ran (the command never writes to `os.environ`, so it is threaded
through unchanged). -/
def handle (os : Invocation → Option ExecError) (dirname : String)
    (args : List String) (environ : Env) : HandleResult × List Event × Env :=
  let session_kind := sessionKind args
  let env := environCopy environ
  let argsList := [livyServerPath dirname, session_kind]
  let inv : Invocation := ⟨argsList[0]!, argsList, env⟩
  (execveResult (os inv) inv,
   [Event.logInfo (logMessage argsList env), Event.execveCall inv],
   environ)

/-- The `execve` calls recorded in a trace. -/
def execCalls (t : List Event) : List Invocation :=
  t.filterMap fun e =>
    match e with
    | Event.execveCall inv => some inv
    | _ => none

/-- The informational log messages recorded in a trace. -/
def infoLogs (t : List Event) : List String :=
  t.filterMap fun e =>
    match e with
    | Event.logInfo msg => some msg
    | _ => none

/-- A string none of whose characters needs `repr` escaping. -/
def plainString (s : String) : Bool :=
  s.data.all fun c => pyEscapeChar c == [c]

/-- A concrete installation directory for the launcher file, used as a sample
input (the deployment layout the spec's scenarios describe). -/
def sampleDir : String := "/opt/hue/apps/spark/src/spark/management/commands"

/-- A concrete sample environment mapping. -/
def sampleEnv : Env := [("PATH", "/usr/bin"), ("HOME", "/home/hue")]

/-- A sample operating system that lets the `execve` call succeed. -/
def okOs : Invocation → Option ExecError := fun _ => none

/-- A sample operating system that denies every `execve` call with a
missing-file error. -/
def failingOs : Invocation → Option ExecError := fun _ => some ExecError.enoent

set_option maxHeartbeats 400000

/-! Basic unfolding lemmas about `handle`. -/

theorem getElem_bang_pair (p k : String) : ([p, k] : List String)[0]! = p := rfl

theorem handle_unfold (os : Invocation → Option ExecError) (d : String)
    (args : List String) (environ : Env) :
    handle os d args environ =
      (execveResult (os ⟨livyServerPath d, [livyServerPath d, sessionKind args], environ⟩)
        ⟨livyServerPath d, [livyServerPath d, sessionKind args], environ⟩,
       [Event.logInfo (logMessage [livyServerPath d, sessionKind args] environ),
        Event.execveCall ⟨livyServerPath d, [livyServerPath d, sessionKind args], environ⟩],
       environ) := by
  simp only [handle, getElem_bang_pair, environCopy]

theorem handle_result (os : Invocation → Option ExecError) (d : String)
    (args : List String) (environ : Env) :
    (handle os d args environ).1 =
      execveResult (os ⟨livyServerPath d, [livyServerPath d, sessionKind args], environ⟩)
        ⟨livyServerPath d, [livyServerPath d, sessionKind args], environ⟩ := by
  rw [handle_unfold]

theorem handle_trace (os : Invocation → Option ExecError) (d : String)
    (args : List String) (environ : Env) :
    (handle os d args environ).2.1 =
      [Event.logInfo (logMessage [livyServerPath d, sessionKind args] environ),
       Event.execveCall ⟨livyServerPath d, [livyServerPath d, sessionKind args], environ⟩] := by
  rw [handle_unfold]

theorem handle_env (os : Invocation → Option ExecError) (d : String)
    (args : List String) (environ : Env) :
    (handle os d args environ).2.2 = environ := by
  rw [handle_unfold]

theorem execCalls_handle (os : Invocation → Option ExecError) (d : String)
    (args : List String) (environ : Env) :
    execCalls (handle os d args environ).2.1 =
      [⟨livyServerPath d, [livyServerPath d, sessionKind args], environ⟩] := by
  rw [handle_trace]; rfl

theorem infoLogs_handle (os : Invocation → Option ExecError) (d : String)
    (args : List String) (environ : Env) :
    infoLogs (handle os d args environ).2.1 =
      [logMessage [livyServerPath d, sessionKind args] environ] := by
  rw [handle_trace]; rfl

theorem sessionKind_eq_head (args : List String) :
    sessionKind args =
      match args.head? with
      | none => "process"
      | some a => pyLower a := by
  cases args <;> rfl

/-! Lemmas about `osPathJoin` on a directory that is non-empty and does not
end in a separator: every component is appended behind a fresh `"/"`. -/

theorem isSuffixOf_singleton_append (c : Char) (l r : List Char) (h : r ≠ []) :
    List.isSuffixOf [c] (l ++ r) = List.isSuffixOf [c] r := by
  simp only [List.isSuffixOf, List.reverse_append]
  cases hr : r.reverse with
  | nil => exact absurd (by simpa using congrArg List.reverse hr) h
  | cons x xs => simp [List.isPrefixOf]

theorem data_ne_nil (t : String) (h : t ≠ "") : t.data ≠ [] :=
  fun hc => h (String.ext hc)

theorem append_ne_empty (s t : String) (h : t ≠ "") : s ++ t ≠ "" := by
  intro hc
  have hd := congrArg String.data hc
  rw [String.data_append] at hd
  exact data_ne_nil t h (List.append_eq_nil.mp hd).2

theorem strEndsWith_slash_append (s t : String) (ht : t ≠ "")
    (h : strEndsWith t "/" = false) : strEndsWith (s ++ t) "/" = false := by
  unfold strEndsWith at h ⊢
  rw [String.data_append]
  rw [show ("/" : String).data = ['/'] from rfl] at h ⊢
  rw [isSuffixOf_singleton_append '/' s.data t.data (data_ne_nil t ht)]
  exact h

theorem joinOne_plain (path b : String) (h0 : path ≠ "")
    (h1 : strEndsWith path "/" = false) (h2 : strStartsWith b "/" = false) :
    joinOne path b = path ++ "/" ++ b := by
  simp [joinOne, h0, h1, h2]

theorem join_step (acc b : String) (ha : acc ≠ "") (he : strEndsWith acc "/" = false)
    (hs : strStartsWith b "/" = false) (hb : b ≠ "") (heb : strEndsWith b "/" = false) :
    joinOne acc b = acc ++ "/" ++ b ∧ acc ++ "/" ++ b ≠ "" ∧
    strEndsWith (acc ++ "/" ++ b) "/" = false :=
  ⟨joinOne_plain acc b ha he hs, append_ne_empty _ _ hb,
   strEndsWith_slash_append (acc ++ "/") b hb heb⟩

theorem livyServerPath_eq (d : String) (h1 : d ≠ "") (h2 : strEndsWith d "/" = false) :
    livyServerPath d = d ++ "/../../../../java/bin/livy-server" := by
  obtain ⟨e1, n1, s1⟩ := join_step d ".." h1 h2 (by decide) (by decide) (by decide)
  obtain ⟨e2, n2, s2⟩ := join_step _ ".." n1 s1 (by decide) (by decide) (by decide)
  obtain ⟨e3, n3, s3⟩ := join_step _ ".." n2 s2 (by decide) (by decide) (by decide)
  obtain ⟨e4, n4, s4⟩ := join_step _ ".." n3 s3 (by decide) (by decide) (by decide)
  obtain ⟨e5, n5, s5⟩ := join_step _ "java" n4 s4 (by decide) (by decide) (by decide)
  obtain ⟨e6, n6, s6⟩ := join_step _ "bin" n5 s5 (by decide) (by decide) (by decide)
  obtain ⟨e7, n7, s7⟩ := join_step _ "livy-server" n6 s6 (by decide) (by decide) (by decide)
  show List.foldl joinOne d ["..", "..", "..", "..", "java", "bin", "livy-server"] = _
  simp only [List.foldl]
  rw [e1, e2, e3, e4, e5, e6, e7]
  have hlit : ("/../../../../java/bin/livy-server" : String) =
      "/" ++ ".." ++ "/" ++ ".." ++ "/" ++ ".." ++ "/" ++ ".." ++ "/" ++ "java" ++
      "/" ++ "bin" ++ "/" ++ "livy-server" := by
    decide
  rw [hlit]
  apply String.ext
  simp only [String.data_append, List.append_assoc]

/-! Lemmas about the logged line. -/

theorem intercalate_pair (s a b : String) : String.intercalate s [a, b] = a ++ s ++ b := by
  simp [String.intercalate, String.intercalate.go]

theorem plain_flatten (l : List Char) (h : (l.all fun c => pyEscapeChar c == [c]) = true) :
    (l.map pyEscapeChar).flatten = l := by
  induction l with
  | nil => rfl
  | cons c cs ih =>
    simp only [List.all_cons, Bool.and_eq_true, beq_iff_eq] at h
    simp [h.1, ih h.2]

theorem data_pyReprStr_plain (s : String) (h : plainString s = true) :
    (pyReprStr s).data = Char.ofNat 39 :: s.data ++ [Char.ofNat 39] := by
  have hf := plain_flatten s.data (by simpa [plainString] using h)
  simp [pyReprStr, hf]

theorem logMessage_decompose (p k : String) (e : Env) :
    logMessage [p, k] e =
      ("Executing " ++ binRepr ++ " (" ++ "[") ++ pyReprStr p ++
      (", " ++ pyReprStr k ++ "]" ++ ") (" ++ pyReprDict e ++ ")") := by
  simp only [logMessage, pyReprList, List.map, intercalate_pair]
  apply String.ext
  simp only [String.data_append, List.append_assoc]

theorem path_infix_logMessage (p k : String) (e : Env) (h : plainString p = true) :
    p.data <:+: (logMessage [p, k] e).data := by
  rw [logMessage_decompose]
  rw [String.data_append, String.data_append]
  rw [data_pyReprStr_plain p h]
  refine ⟨("Executing " ++ binRepr ++ " (" ++ "[").data ++ [Char.ofNat 39],
          [Char.ofNat 39] ++
            (", " ++ pyReprStr k ++ "]" ++ ") (" ++ pyReprDict e ++ ")").data, ?_⟩
  simp [List.append_assoc]

/-! Claim theorems. -/

/-- C1: for every argument sequence the launcher performs exactly one
process-replace (`execve`) call; its argument vector is the two-element list
consisting of the resolved executable path followed by the chosen session
kind, its environment is the captured environment snapshot, and the file
executed is the first element of that vector. -/
theorem C1_single_exec_call (os : Invocation → Option ExecError) (dirname : String)
    (args : List String) (environ : Env) :
    execCalls (handle os dirname args environ).2.1 =
      [⟨livyServerPath dirname, [livyServerPath dirname, sessionKind args], environ⟩] ∧
    ((execCalls (handle os dirname args environ).2.1).headD default).path =
      ((execCalls (handle os dirname args environ).2.1).headD default).argv.headD "" := by
  refine ⟨execCalls_handle os dirname args environ, ?_⟩
  rw [execCalls_handle]
  simp only [List.headD_cons]

/-- C2: the chosen session kind is `"process"` for the empty argument
sequence, and the lower-cased first element for a non-empty sequence; in both
cases it is the second entry of the `execve` argument vector. -/
theorem C2_default_and_lowercase (os : Invocation → Option ExecError) (dirname : String)
    (environ : Env) (a : String) (rest : List String) :
    execCalls (handle os dirname [] environ).2.1 =
      [⟨livyServerPath dirname, [livyServerPath dirname, "process"], environ⟩] ∧
    execCalls (handle os dirname (a :: rest) environ).2.1 =
      [⟨livyServerPath dirname, [livyServerPath dirname, pyLower a], environ⟩] :=
  ⟨execCalls_handle os dirname [] environ, execCalls_handle os dirname (a :: rest) environ⟩

/-- C3: when the `execve` system call cannot be completed, `handle` ends in
`HandleResult.raised` with the propagated `OSError`, the outcome is not a
process replacement, and the ambient environment is unchanged on the error
path (all-or-nothing, no retry). -/
theorem C3_exec_error_propagates (os : Invocation → Option ExecError) (dirname : String)
    (args : List String) (environ : Env) (e : ExecError)
    (h : os ⟨livyServerPath dirname, [livyServerPath dirname, sessionKind args], environ⟩ = some e) :
    (handle os dirname args environ).1 = HandleResult.raised e ∧
    (∀ inv, (handle os dirname args environ).1 ≠ HandleResult.replaced inv) ∧
    (handle os dirname args environ).2.2 = environ := by
  have hr : (handle os dirname args environ).1 = HandleResult.raised e := by
    rw [handle_result, h]
    rfl
  refine ⟨hr, ?_, handle_env os dirname args environ⟩
  intro inv hc
  rw [hr] at hc
  exact HandleResult.noConfusion hc

/-- Witness for C3 at a concrete installation directory, empty argument
sequence, one-entry environment, and an operating system that denies the
`execve` call with a missing-file error. -/
theorem C3_exec_error_propagates_witness :
    ((fun _ : Invocation => some ExecError.enoent)
        ⟨livyServerPath "/opt/hue/apps/spark/src/spark/management/commands",
         [livyServerPath "/opt/hue/apps/spark/src/spark/management/commands", sessionKind []],
         [("PATH", "/usr/bin")]⟩ = some ExecError.enoent) ∧
    ((handle (fun _ : Invocation => some ExecError.enoent)
        "/opt/hue/apps/spark/src/spark/management/commands" [] [("PATH", "/usr/bin")]).1 =
          HandleResult.raised ExecError.enoent ∧
     (∀ inv, (handle (fun _ : Invocation => some ExecError.enoent)
        "/opt/hue/apps/spark/src/spark/management/commands" [] [("PATH", "/usr/bin")]).1 ≠
          HandleResult.replaced inv) ∧
     (handle (fun _ : Invocation => some ExecError.enoent)
        "/opt/hue/apps/spark/src/spark/management/commands" [] [("PATH", "/usr/bin")]).2.2 =
          [("PATH", "/usr/bin")]) :=
  ⟨rfl, C3_exec_error_propagates (fun _ : Invocation => some ExecError.enoent)
    "/opt/hue/apps/spark/src/spark/management/commands" [] [("PATH", "/usr/bin")]
    ExecError.enoent rfl⟩

/-- C4: the resolved executable path of the `execve` call does not depend on
the arguments or the environment; for a fixed installation layout (a fixed
`dirname`) it is the fixed value obtained by joining four parent-directory
steps and `java/bin/livy-server` onto the launcher's own directory. -/
theorem C4_fixed_resolved_path (os : Invocation → Option ExecError) (dirname : String)
    (args₁ args₂ : List String) (environ₁ environ₂ : Env) :
    ((execCalls (handle os dirname args₁ environ₁).2.1).headD default).path =
      livyServerPath dirname ∧
    ((execCalls (handle os dirname args₂ environ₂).2.1).headD default).path =
      ((execCalls (handle os dirname args₁ environ₁).2.1).headD default).path ∧
    livyServerPath dirname =
      osPathJoin dirname ["..", "..", "..", "..", "java", "bin", "livy-server"] := by
  have h1 : ∀ (args : List String) (env : Env),
      ((execCalls (handle os dirname args env).2.1).headD default).path =
        livyServerPath dirname := by
    intro args env
    rw [execCalls_handle]
    simp only [List.headD_cons]
  exact ⟨h1 args₁ environ₁, by rw [h1 args₁ environ₁, h1 args₂ environ₂], rfl⟩

/-- C5: the environment mapping passed to the `execve` call is exactly the
copy of the ambient environment taken at call time, and that copy has the
same entries as the ambient environment (no modification by the launcher). -/
theorem C5_env_forwarded_unchanged (os : Invocation → Option ExecError) (dirname : String)
    (args : List String) (environ : Env) :
    (execCalls (handle os dirname args environ).2.1).map Invocation.env =
      [environCopy environ] ∧
    environCopy environ = environ := by
  refine ⟨?_, rfl⟩
  rw [execCalls_handle]
  rfl

/-- C6: two argument sequences with the same first element (or both empty)
produce identical launcher behavior: the same result, the same event trace
(hence the same resolved path, session kind, and argument vector), and the
same final environment.  Arguments beyond the first are ignored. -/
theorem C6_extra_args_ignored (os : Invocation → Option ExecError) (dirname : String)
    (environ : Env) (args₁ args₂ : List String) (h : args₁.head? = args₂.head?) :
    handle os dirname args₁ environ = handle os dirname args₂ environ := by
  have hk : sessionKind args₁ = sessionKind args₂ := by
    rw [sessionKind_eq_head, sessionKind_eq_head, h]
  rw [handle_unfold, handle_unfold, hk]

/-- Witness for C6: trailing arguments after `"YARN"` do not change the
invocation. -/
theorem C6_extra_args_ignored_witness :
    (["YARN", "extra", "ignored"] : List String).head? = (["YARN"] : List String).head? ∧
    handle (fun _ : Invocation => none) "/opt/hue/apps/spark/src/spark/management/commands"
        ["YARN", "extra", "ignored"] [("PATH", "/usr/bin")] =
      handle (fun _ : Invocation => none) "/opt/hue/apps/spark/src/spark/management/commands"
        ["YARN"] [("PATH", "/usr/bin")] :=
  ⟨rfl, C6_extra_args_ignored (fun _ : Invocation => none)
    "/opt/hue/apps/spark/src/spark/management/commands" [("PATH", "/usr/bin")]
    ["YARN", "extra", "ignored"] ["YARN"] rfl⟩

/-- C8: no validation of the session kind is performed: for every non-empty
argument sequence the lower-cased first element, recognized or not, is passed
through unchanged as the second entry of the `execve` argument vector. -/
theorem C8_kind_passed_through (os : Invocation → Option ExecError) (dirname : String)
    (environ : Env) (a : String) (rest : List String) :
    execCalls (handle os dirname (a :: rest) environ).2.1 =
      [⟨livyServerPath dirname, [livyServerPath dirname, pyLower a], environ⟩] ∧
    ((execCalls (handle os dirname (a :: rest) environ).2.1).headD default).argv.getD 1 "" =
      pyLower a := by
  refine ⟨execCalls_handle os dirname (a :: rest) environ, ?_⟩
  rw [execCalls_handle]
  simp only [List.headD_cons, List.getD_cons_succ, List.getD_cons_zero, sessionKind]

/-- C10: the launcher never mutates the ambient process environment: for
every invocation (whatever the outcome of the `execve` call, success or any
error) the ambient environment after `handle` is exactly the environment at
entry, and the `execve` call receives a copy. -/
theorem C10_ambient_env_preserved (os : Invocation → Option ExecError) (dirname : String)
    (args : List String) (environ : Env) :
    (handle os dirname args environ).2.2 = environ ∧
    (execCalls (handle os dirname args environ).2.1).map Invocation.env =
      [environCopy environ] := by
  refine ⟨handle_env os dirname args environ, ?_⟩
  rw [execCalls_handle]
  rfl

/-- C7: before performing the `execve` call the launcher emits exactly one
informational log line, and it precedes the `execve` event in the trace; the
message is the formatted line built from the resolved path, the argument
list, and the full environment (the first `%r` slot of the format receives
the Python builtin `bin`, while the resolved path appears inside the repr of
the argument list).  When the resolved path needs no repr-escaping the
message literally contains the resolved executable path. -/
theorem C7_log_before_exec (os : Invocation → Option ExecError) (dirname : String)
    (args : List String) (environ : Env)
    (h : plainString (livyServerPath dirname) = true) :
    (handle os dirname args environ).2.1 =
      [Event.logInfo (logMessage [livyServerPath dirname, sessionKind args] environ),
       Event.execveCall
         ⟨livyServerPath dirname, [livyServerPath dirname, sessionKind args], environ⟩] ∧
    infoLogs (handle os dirname args environ).2.1 =
      [logMessage [livyServerPath dirname, sessionKind args] environ] ∧
    (livyServerPath dirname).data <:+:
      (logMessage [livyServerPath dirname, sessionKind args] environ).data :=
  ⟨handle_trace os dirname args environ, infoLogs_handle os dirname args environ,
   path_infix_logMessage _ _ _ h⟩

/-- Witness for C7 at a concrete installation directory, argument `"YARN"`,
and a two-entry environment. -/
theorem C7_log_before_exec_witness :
    plainString (livyServerPath sampleDir) = true ∧
    ((handle okOs sampleDir ["YARN"] sampleEnv).2.1 =
      [Event.logInfo (logMessage [livyServerPath sampleDir, sessionKind ["YARN"]] sampleEnv),
       Event.execveCall
         ⟨livyServerPath sampleDir, [livyServerPath sampleDir, sessionKind ["YARN"]],
          sampleEnv⟩] ∧
     infoLogs (handle okOs sampleDir ["YARN"] sampleEnv).2.1 =
      [logMessage [livyServerPath sampleDir, sessionKind ["YARN"]] sampleEnv] ∧
     (livyServerPath sampleDir).data <:+:
      (logMessage [livyServerPath sampleDir, sessionKind ["YARN"]] sampleEnv).data) :=
  ⟨by decide, C7_log_before_exec okOs sampleDir ["YARN"] sampleEnv (by decide)⟩

/-- C9: the resolved executable path is built by path-joining without
normalization: for every launcher directory that is non-empty and does not
end in a separator, the path handed to `execve` is literally the launcher
directory followed by four `..` segments and `java/bin/livy-server`, with no
collapsing of the parent-directory segments. -/
theorem C9_literal_parent_segments (os : Invocation → Option ExecError) (dirname : String)
    (args : List String) (environ : Env) (h1 : dirname ≠ "")
    (h2 : strEndsWith dirname "/" = false) :
    livyServerPath dirname = dirname ++ "/../../../../java/bin/livy-server" ∧
    ((execCalls (handle os dirname args environ).2.1).headD default).path =
      dirname ++ "/../../../../java/bin/livy-server" := by
  have hp := livyServerPath_eq dirname h1 h2
  refine ⟨hp, ?_⟩
  rw [execCalls_handle]
  simp only [List.headD_cons]
  exact hp

/-- Witness for C9 at the concrete installation directory. -/
theorem C9_literal_parent_segments_witness :
    sampleDir ≠ "" ∧ strEndsWith sampleDir "/" = false ∧
    (livyServerPath sampleDir = sampleDir ++ "/../../../../java/bin/livy-server" ∧
     ((execCalls (handle okOs sampleDir ["YARN"] sampleEnv).2.1).headD default).path =
       sampleDir ++ "/../../../../java/bin/livy-server") :=
  ⟨by decide, by decide,
   C9_literal_parent_segments okOs sampleDir ["YARN"] sampleEnv (by decide) (by decide)⟩

end LivyServer
